import Mathlib

/-!
Verification development for the Jordan country-brief extraction pipeline
(`app.py` and `pages/`): a shallow embedding of the text-acquisition and
indicator-extraction code, together with theorems settling the spec claims.

Python regular expressions used by the code are embedded via a small
backtracking matcher over an explicit pattern syntax: every quantifier in
the source patterns ranges over a single character class, so the matcher
supports exactly literal characters, character classes, concatenation,
alternation, greedy/lazy class stars and numbered capture groups, with
Python's leftmost-match, greedy-preference backtracking order.

Python `float` values are modelled as exact rationals (`ℚ`); the amounts
and percentages handled by the code are short decimal literals for which
the float results coincide with the exact decimal values.
-/

/-- Characters treated as whitespace by Python's `\s` and `str.strip()`
(ASCII range; the source texts contain no exotic Unicode spaces). -/
def pySpace (c : Char) : Bool :=
  c == ' ' || c == '\t' || c == '\n' || c == '\r' || c == '\x0b' || c == '\x0c'

/-- Python `\w` (Unicode word character), modelled as ASCII alphanumerics,
underscore, and any non-ASCII character (which covers the Hangul letters
the source patterns rely on). -/
def pyWord (c : Char) : Bool :=
  c.isAlphanum || c == '_' || Nat.ble 128 c.toNat

/-- `.` in a Python pattern without `re.DOTALL`: any character except newline. -/
def pyDot (c : Char) : Bool := c != '\n'

/-- Pattern syntax: exactly the constructs appearing in the source regexes.
Quantifiers are restricted to character classes, which makes the
backtracking matcher structurally recursive. -/
inductive RE where
  | eps : RE
  | chr : Char → RE
  | cls : (Char → Bool) → RE
  | seq : RE → RE → RE
  | alt : RE → RE → RE
  | starCls : (Char → Bool) → RE
  | lazyStarCls : (Char → Bool) → RE
  | group : Nat → RE → RE

/-- Capture environment: group number ↦ captured characters.  The most
recent binding for a group number is found first, and a group that did not
participate in the match has no binding (Python's `m.group(n) is None`). -/
abbrev Caps := List (Nat × List Char)

/-- All ways a pattern can match a prefix of the input, as
`(remaining input, captures)` pairs in backtracking priority order:
the head is the alternative Python's engine commits to. -/
def runRE : RE → List Char → Caps → List (List Char × Caps)
  | .eps, s, caps => [(s, caps)]
  | .chr c, s, caps =>
    match s with
    | [] => []
    | x :: rest => if x == c then [(rest, caps)] else []
  | .cls p, s, caps =>
    match s with
    | [] => []
    | x :: rest => if p x then [(rest, caps)] else []
  | .seq a b, s, caps =>
    (runRE a s caps).flatMap fun rc => runRE b rc.1 rc.2
  | .alt a b, s, caps => runRE a s caps ++ runRE b s caps
  | .starCls p, s, caps =>
    let n := (s.takeWhile p).length
    (List.range (n + 1)).map fun k => (s.drop (n - k), caps)
  | .lazyStarCls p, s, caps =>
    let n := (s.takeWhile p).length
    (List.range (n + 1)).map fun k => (s.drop k, caps)
  | .group n r, s, caps =>
    (runRE r s caps).map fun rc => (rc.1, (n, s.take (s.length - rc.1.length)) :: rc.2)

/-- Python `re.match`: anchored attempt at the start of the input; returns
the captures of the engine's first (highest-priority) match. -/
def reMatch (r : RE) (s : List Char) : Option Caps :=
  ((runRE r s []).head?).map (·.2)

/-- Python `re.search`: leftmost match wins; at the leftmost feasible start
position the backtracking priority order decides. -/
def reSearch (r : RE) : List Char → Option Caps
  | [] => reMatch r []
  | s@(_ :: rest) =>
    match reMatch r s with
    | some caps => some caps
    | none => reSearch r rest

/-- `m.group(n)`: `none` when the group did not participate in the match. -/
def capGet (caps : Caps) (n : Nat) : Option (List Char) :=
  List.lookup n caps

/-- `m.group(n)` for a group that is known to participate whenever the whole
pattern matches (all uses in the source follow this shape). -/
def capStr (caps : Caps) (n : Nat) : List Char :=
  (capGet caps n).getD []

/-- Pattern combinators used to transcribe the source regexes. -/
def cat (l : List RE) : RE := l.foldr RE.seq RE.eps

/-- A literal string of characters. -/
def lit (s : String) : RE := cat (s.data.map RE.chr)

/-- `\s*` -/
def ws : RE := RE.starCls pySpace

/-- `X+` for a character class `X` (greedy). -/
def plusCls (p : Char → Bool) : RE := RE.seq (RE.cls p) (RE.starCls p)

/-- `(?:R)?` (greedy optional). -/
def opt (r : RE) : RE := RE.alt r RE.eps

/-- `c?` for a single literal character. -/
def optCh (c : Char) : RE := RE.alt (RE.chr c) RE.eps

/-- `\d{4}` -/
def digit4 : RE := cat [RE.cls Char.isDigit, RE.cls Char.isDigit, RE.cls Char.isDigit, RE.cls Char.isDigit]

/-- `[\d,]` -/
def digitComma (c : Char) : Bool := c.isDigit || c == ','

/-- `[\d\.]` -/
def digitDot (c : Char) : Bool := c.isDigit || c == '.'

/-- `[^\(\n]` -/
def notOpenNl (c : Char) : Bool := !(c == '(' || c == '\n')

/-- `[^)\n]` -/
def notCloseNl (c : Char) : Bool := !(c == ')' || c == '\n')

/-- `[0-9~\.\-]` -/
def agriCls (c : Char) : Bool := c.isDigit || c == '~' || c == '.' || c == '-'

/-- Numeric value of a string of decimal digits (Python `int` on a digit string). -/
def digitsVal (s : List Char) : Nat :=
  s.foldl (fun n c => 10 * n + (c.toNat - '0'.toNat)) 0

/-!
Rational arithmetic for the model.  The standard `ℚ` operations from
Batteries are `@[irreducible]`, which blocks kernel evaluation of the
model on concrete inputs (`decide`), so the model computes with the
following kernel-reducible equivalents, each proved equal to the standard
operation below.
-/

/-- Kernel-reducible negation on `ℚ`. -/
def qneg (a : ℚ) : ℚ := Rat.divInt (-a.num) a.den

/-- Kernel-reducible addition on `ℚ`. -/
def qadd (a b : ℚ) : ℚ := Rat.divInt (a.num * b.den + b.num * a.den) (a.den * b.den)

/-- Kernel-reducible subtraction on `ℚ`. -/
def qsub (a b : ℚ) : ℚ := qadd a (qneg b)

/-- Kernel-reducible multiplication on `ℚ`. -/
def qmul (a b : ℚ) : ℚ := Rat.divInt (a.num * b.num) (a.den * b.den)

/-- Kernel-reducible division on `ℚ` (division by zero yields zero, as in `ℚ`). -/
def qdiv (a b : ℚ) : ℚ := Rat.divInt (a.num * b.den) (a.den * b.num)

theorem qneg_eq (a : ℚ) : qneg a = -a := by
  rw [qneg, Rat.divInt_eq_div]
  push_cast
  rw [neg_div, Rat.num_div_den]

theorem qadd_eq (a b : ℚ) : qadd a b = a + b := by
  have ha : ((a.den : ℚ)) ≠ 0 := by exact_mod_cast a.den_nz
  have hb : ((b.den : ℚ)) ≠ 0 := by exact_mod_cast b.den_nz
  have hA : (a.num : ℚ) = a * a.den := (div_eq_iff ha).mp (Rat.num_div_den a)
  have hB : (b.num : ℚ) = b * b.den := (div_eq_iff hb).mp (Rat.num_div_den b)
  rw [qadd, Rat.divInt_eq_div]
  push_cast
  rw [div_eq_iff (mul_ne_zero ha hb), hA, hB]
  ring

theorem qsub_eq (a b : ℚ) : qsub a b = a - b := by
  rw [qsub, qadd_eq, qneg_eq, sub_eq_add_neg]

theorem qmul_eq (a b : ℚ) : qmul a b = a * b := by
  have ha : ((a.den : ℚ)) ≠ 0 := by exact_mod_cast a.den_nz
  have hb : ((b.den : ℚ)) ≠ 0 := by exact_mod_cast b.den_nz
  have hA : (a.num : ℚ) = a * a.den := (div_eq_iff ha).mp (Rat.num_div_den a)
  have hB : (b.num : ℚ) = b * b.den := (div_eq_iff hb).mp (Rat.num_div_den b)
  rw [qmul, Rat.divInt_eq_div]
  push_cast
  rw [div_eq_iff (mul_ne_zero ha hb), hA, hB]
  ring

theorem qdiv_eq (a b : ℚ) : qdiv a b = a / b := by
  rcases eq_or_ne b 0 with rb | rb
  · subst rb
    simp [qdiv, Rat.divInt_eq_div]
  · have hbn : (b.num : ℚ) ≠ 0 := by
      exact_mod_cast Rat.num_ne_zero.mpr rb
    have ha : ((a.den : ℚ)) ≠ 0 := by exact_mod_cast a.den_nz
    have hbd : ((b.den : ℚ)) ≠ 0 := by exact_mod_cast b.den_nz
    have hA : (a.num : ℚ) = a * a.den := (div_eq_iff ha).mp (Rat.num_div_den a)
    have hB : (b.num : ℚ) = b * b.den := (div_eq_iff hbd).mp (Rat.num_div_den b)
    rw [qdiv, Rat.divInt_eq_div]
    push_cast
    rw [div_eq_div_iff (mul_ne_zero ha hbn) rb, hA, hB]
    ring

/-- Python `int(s)` restricted to the strings the extractor feeds it
(optionally empty strings of decimal digits after comma-stripping):
`none` models the `ValueError` raised on a string with no digits. -/
def int? (s : List Char) : Option Int :=
  if s ≠ [] ∧ s.all Char.isDigit then some (digitsVal s : Int) else none

/-- `str.replace(",", "")` on the digit/comma captures. -/
def stripCommas (s : List Char) : List Char := s.filter (fun c => c != ',')

/-- `str.strip()`. -/
def stripWs (s : List Char) : List Char :=
  ((s.dropWhile pySpace).reverse.dropWhile pySpace).reverse

/-- Python `round(q)` to an integer: nearest integer, ties to even
(banker's rounding), computed on the exact rational model with integer
arithmetic only. -/
def pyRoundInt (q : ℚ) : ℤ :=
  let f := Int.fdiv q.num q.den
  let r := q.num - f * q.den
  if 2 * r < (q.den : ℤ) then f
  else if (q.den : ℤ) < 2 * r then f + 1
  else if f % 2 = 0 then f else f + 1

/-- Python `round(q, 4)` on the exact rational model: `round(q * 10000) / 10000`.
(The amounts the code rounds are exact two-decimal rationals, so no rounding
tie ever arises and float representation subtleties are immaterial.) -/
def round4 (q : ℚ) : ℚ :=
  Rat.divInt (pyRoundInt (Rat.divInt (q.num * 10000) q.den)) 10000

/-- Value of an integer-and-fraction decimal literal such as `18.5`,
as the exact rational (intPart · 10^k + fracPart) / 10^k. -/
def decVal (ip fp : List Char) : ℚ :=
  Rat.divInt (digitsVal ip * 10 ^ fp.length + digitsVal fp) (10 ^ fp.length)

/-- Exponent part of a float literal: `e`/`E` already consumed; optional
sign then at least one digit. -/
def expVal (s : List Char) : Option ℤ :=
  match s with
  | '+' :: rest => if rest ≠ [] ∧ rest.all Char.isDigit then some (digitsVal rest : ℤ) else none
  | '-' :: rest => if rest ≠ [] ∧ rest.all Char.isDigit then some (-(digitsVal rest : ℤ)) else none
  | _ => if s ≠ [] ∧ s.all Char.isDigit then some (digitsVal s : ℤ) else none

/-- Scale a rational mantissa by a power of ten (the `e`/`E` exponent). -/
def applyExp (m : ℚ) (e : ℤ) : ℚ :=
  if 0 ≤ e then Rat.divInt (m.num * (10 ^ e.toNat : ℕ)) m.den
  else Rat.divInt m.num (m.den * (10 ^ (-e).toNat : ℕ))

/-- Unsigned body of a Python float literal: digits, optional fraction,
optional exponent; at least one digit in the mantissa. -/
def floatBody (s : List Char) : Option ℚ :=
  let ip := s.takeWhile Char.isDigit
  let r1 := s.dropWhile Char.isDigit
  match r1 with
  | [] => if ip = [] then none else some (Rat.divInt (digitsVal ip) 1)
  | '.' :: r2 =>
    let fp := r2.takeWhile Char.isDigit
    let r3 := r2.dropWhile Char.isDigit
    if ip = [] ∧ fp = [] then none
    else
      match r3 with
      | [] => some (decVal ip fp)
      | 'e' :: r4 => (expVal r4).map fun e => applyExp (decVal ip fp) e
      | 'E' :: r4 => (expVal r4).map fun e => applyExp (decVal ip fp) e
      | _ => none
  | 'e' :: r4 =>
    if ip = [] then none
    else (expVal r4).map fun e => applyExp (Rat.divInt (digitsVal ip) 1) e
  | 'E' :: r4 =>
    if ip = [] then none
    else (expVal r4).map fun e => applyExp (Rat.divInt (digitsVal ip) 1) e
  | _ => none

/-- Python `float(s)` on finite decimal notation (optional surrounding
whitespace, optional sign, decimal mantissa, optional exponent); `inf`,
`nan` and digit-group underscores do not occur in the extractor's inputs
and are not modelled. -/
def pyFloat? (s : List Char) : Option ℚ :=
  let t := stripWs s
  match t with
  | '+' :: rest => floatBody rest
  | '-' :: rest => (floatBody rest).map qneg
  | _ => floatBody t

/-- `safe_float` from `app.py`: `float(x)` with every exception mapped to `None`. -/
def safe_float (s : String) : Option ℚ := pyFloat? s.data

/-- The amount pattern of `parse_korean_amount_to_usd_billion`:
`(\d+)\s*억(?:\s*(\d+)\s*천만)?`. -/
def amountRE : RE :=
  cat [RE.group 1 (plusCls Char.isDigit), ws, RE.chr '억',
       opt (cat [ws, RE.group 2 (plusCls Char.isDigit), ws, lit "천만"])]

/-- `parse_korean_amount_to_usd_billion` from `app.py`: strip commas and
whitespace, search for the 억/천만 amount pattern, and convert
`eok * 0.1 + cheonman * 0.01` rounded to 4 decimal places; `None` when the
pattern does not match. -/
def parse_korean_amount_to_usd_billion (text : String) : Option ℚ :=
  let t := stripWs (stripCommas text.data)
  (reSearch amountRE t).map fun caps =>
    let eok : ℚ := Rat.divInt (digitsVal (capStr caps 1)) 1
    let cheonman : ℚ :=
      match capGet caps 2 with
      | some [] => 0
      | some (x :: xs) => Rat.divInt (digitsVal (x :: xs)) 1
      | none => 0
    round4 (qadd (qmul eok (Rat.divInt 1 10)) (qmul cheonman (Rat.divInt 1 100)))

/-!
## The indicator record and extraction rules

`extract_indicators` in `app.py` runs a sequence of independent
label-anchored regex rules over the flat text, mutating a fresh
`JordanIndicators` instance.  The embedding threads the record through one
step function per source rule block, in source order.  Python's `int(...)`
calls on `[\d,]+` captures can raise `ValueError` when the capture contains
no digit; the embedding models this by making those steps (and hence the
whole extractor) `Option`-valued, with `none` as the raised exception.
`int()` on a `(\d{4})` capture cannot fail and is modelled directly by
`digitsVal`.
-/

/-- The `JordanIndicators` dataclass from `app.py`: every field optional,
defaulting to absent.  Amounts and percentages are exact rationals (Python
floats on short decimal values); counts and years are integers. -/
structure JordanIndicators where
  country_name : Option String := none
  capital : Option String := none
  capital_population_hint : Option String := none
  area_km2 : Option Int := none
  population_million : Option ℚ := none
  language : Option String := none
  religion : Option String := none
  government_form : Option String := none
  gdp_year : Option Int := none
  gdp_usd_billion : Option ℚ := none
  gdp_per_capita_year : Option Int := none
  gdp_per_capita_usd : Option Int := none
  real_gdp_growth_year : Option Int := none
  real_gdp_growth_pct : Option ℚ := none
  trade_year : Option Int := none
  export_usd_billion : Option ℚ := none
  import_usd_billion : Option ℚ := none
  unemployment_year : Option Int := none
  unemployment_pct : Option ℚ := none
  youth_unemployment_pct : Option ℚ := none
  sector_fin_public_pct : Option ℚ := none
  sector_manufacturing_pct : Option ℚ := none
  sector_ict_pct : Option ℚ := none
  sector_agri_pct_range : Option String := none
  deriving DecidableEq

/-- `JordanIndicators.trade_balance_usd_billion` from `app.py`: derived on
demand, `None` when either operand is absent, else `round(export - import, 4)`. -/
def JordanIndicators.trade_balance_usd_billion (i : JordanIndicators) : Option ℚ :=
  match i.export_usd_billion, i.import_usd_billion with
  | some e, some m => some (round4 (qsub e m))
  | _, _ => none

/-- `국\s*명\s*:\s*(.+)` -/
def countryRE : RE := cat [RE.chr '국', ws, RE.chr '명', ws, RE.chr ':', ws, RE.group 1 (plusCls pyDot)]

/-- `수\s*도\s*:\s*([^\(\n]+)\(([^)\n]+)\)` -/
def capitalRE : RE :=
  cat [RE.chr '수', ws, RE.chr '도', ws, RE.chr ':', ws,
       RE.group 1 (plusCls notOpenNl), RE.chr '(', RE.group 2 (plusCls notCloseNl), RE.chr ')']

/-- `면\s*적\s*:\s*([\d,]+)\s*km2` -/
def areaRE : RE :=
  cat [RE.chr '면', ws, RE.chr '적', ws, RE.chr ':', ws, RE.group 1 (plusCls digitComma), ws, lit "km2"]

/-- `인\s*구\s*:\s*약\s*([\d,]+)\s*만\s*명` -/
def populationRE : RE :=
  cat [RE.chr '인', ws, RE.chr '구', ws, RE.chr ':', ws, RE.chr '약', ws,
       RE.group 1 (plusCls digitComma), ws, RE.chr '만', ws, RE.chr '명']

/-- `언\s*어\s*:\s*(.+)` -/
def languageRE : RE := cat [RE.chr '언', ws, RE.chr '어', ws, RE.chr ':', ws, RE.group 1 (plusCls pyDot)]

/-- `종\s*교\s*:\s*(.+)` -/
def religionRE : RE := cat [RE.chr '종', ws, RE.chr '교', ws, RE.chr ':', ws, RE.group 1 (plusCls pyDot)]

/-- `국가\s*형태\s*:\s*(.+)` -/
def governmentRE : RE := cat [lit "국가", ws, lit "형태", ws, RE.chr ':', ws, RE.group 1 (plusCls pyDot)]

/-- The amount sub-pattern `[\d,]+\s*억(?:\s*\d+\s*천만)?` shared by the GDP
and trade patterns (no inner capture groups). -/
def amountSubRE : RE :=
  cat [plusCls digitComma, ws, RE.chr '억',
       opt (cat [ws, plusCls Char.isDigit, ws, lit "천만"])]

/-- `GDP\s*:\s*([\d,]+\s*억(?:\s*\d+\s*천만)?)\s*달러\((\d{4})\)` -/
def gdpRE : RE :=
  cat [lit "GDP", ws, RE.chr ':', ws, RE.group 1 amountSubRE, ws, lit "달러",
       RE.chr '(', RE.group 2 digit4, RE.chr ')']

/-- `1인당\s*GDP\s*:\s*([\d,]+)\s*달\w*\s*\(?(?:(\d{4}))?` -/
def percapRE : RE :=
  cat [lit "1인당", ws, lit "GDP", ws, RE.chr ':', ws, RE.group 1 (plusCls digitComma), ws,
       RE.chr '달', RE.starCls pyWord, ws, optCh '(', opt (RE.group 2 digit4)]

/-- `실질\s*GDP\s*성장률\s*:\s*([\d\.]+)\s*\(%\s*(\d{4})\)` -/
def growthRE1 : RE :=
  cat [lit "실질", ws, lit "GDP", ws, lit "성장률", ws, RE.chr ':', ws,
       RE.group 1 (plusCls digitDot), ws, RE.chr '(', RE.chr '%', ws, RE.group 2 digit4, RE.chr ')']

/-- Fallback `실질\s*GDP\s*성장률\s*:\s*([\d\.]+)\s*\(%(\d{4})\)` -/
def growthRE2 : RE :=
  cat [lit "실질", ws, lit "GDP", ws, lit "성장률", ws, RE.chr ':', ws,
       RE.group 1 (plusCls digitDot), ws, RE.chr '(', RE.chr '%', RE.group 2 digit4, RE.chr ')']

/-- `수출\s*(amount)\s*달러\((\d{4})\)\s*,\s*수입\s*(amount)\s*달러\((\d{4})\)` -/
def tradeRE : RE :=
  cat [lit "수출", ws, RE.group 1 amountSubRE, ws, lit "달러", RE.chr '(', RE.group 2 digit4, RE.chr ')',
       ws, RE.chr ',', ws,
       lit "수입", ws, RE.group 3 amountSubRE, ws, lit "달러", RE.chr '(', RE.group 4 digit4, RE.chr ')']

/-- `실업률\s*:\s*([\d\.]+)%\((\d{4})\)` -/
def unempRE : RE :=
  cat [lit "실업률", ws, RE.chr ':', ws, RE.group 1 (plusCls digitDot), RE.chr '%',
       RE.chr '(', RE.group 2 digit4, RE.chr ')']

/-- `청년실업률[은는]\s*([\d\.]+)%` -/
def youthRE : RE :=
  cat [lit "청년실업률", RE.cls (fun c => c == '은' || c == '는'), ws,
       RE.group 1 (plusCls digitDot), RE.chr '%']

/-- `전체\s*GDP의\s*약\s*([\d\.]+)%.*?제조업은\s*GDP의\s*([\d\.]+)%\s*,\s*ICT\s*([\d\.]+)%\s*,\s*농업은\s*([0-9~\.\-]+)%` -/
def sectorRE : RE :=
  cat [lit "전체", ws, lit "GDP의", ws, RE.chr '약', ws, RE.group 1 (plusCls digitDot), RE.chr '%',
       RE.lazyStarCls pyDot,
       lit "제조업은", ws, lit "GDP의", ws, RE.group 2 (plusCls digitDot), RE.chr '%', ws, RE.chr ',', ws,
       lit "ICT", ws, RE.group 3 (plusCls digitDot), RE.chr '%', ws, RE.chr ',', ws,
       lit "농업은", ws, RE.group 4 (plusCls agriCls), RE.chr '%']

/-- Record for one rule block of `extract_indicators`: the country-name rule. -/
def stepCountry (t : List Char) (i : JordanIndicators) : JordanIndicators :=
  match reSearch countryRE t with
  | some caps => { i with country_name := some (stripWs (capStr caps 1)).asString }
  | none => i

/-- Capital rule: `<name>(<hint>)` directly after the label, both parts captured. -/
def stepCapital (t : List Char) (i : JordanIndicators) : JordanIndicators :=
  match reSearch capitalRE t with
  | some caps =>
    { i with capital := some (stripWs (capStr caps 1)).asString,
             capital_population_hint := some (stripWs (capStr caps 2)).asString }
  | none => i

/-- Area rule: `int(m.group(1).replace(",", ""))`; the `int` call raises
(modelled `none`) when the `[\d,]+` capture holds no digit. -/
def stepArea (t : List Char) (i : JordanIndicators) : Option JordanIndicators :=
  match reSearch areaRE t with
  | some caps =>
    (int? (stripCommas (capStr caps 1))).map fun v => { i with area_km2 := some v }
  | none => some i

/-- Population rule: ten-thousands (`만`) scaled by 0.01 to millions, rounded. -/
def stepPopulation (t : List Char) (i : JordanIndicators) : Option JordanIndicators :=
  match reSearch populationRE t with
  | some caps =>
    (int? (stripCommas (capStr caps 1))).map fun v =>
      { i with population_million := some (round4 (qmul (Rat.divInt v 1) (Rat.divInt 1 100))) }
  | none => some i

/-- Language rule. -/
def stepLanguage (t : List Char) (i : JordanIndicators) : JordanIndicators :=
  match reSearch languageRE t with
  | some caps => { i with language := some (stripWs (capStr caps 1)).asString }
  | none => i

/-- Religion rule. -/
def stepReligion (t : List Char) (i : JordanIndicators) : JordanIndicators :=
  match reSearch religionRE t with
  | some caps => { i with religion := some (stripWs (capStr caps 1)).asString }
  | none => i

/-- Government-form rule. -/
def stepGovernment (t : List Char) (i : JordanIndicators) : JordanIndicators :=
  match reSearch governmentRE t with
  | some caps => { i with government_form := some (stripWs (capStr caps 1)).asString }
  | none => i

/-- GDP rule: the amount capture is handed to
`parse_korean_amount_to_usd_billion` (which may itself yield `None`);
the year capture is four digits. -/
def stepGdp (t : List Char) (i : JordanIndicators) : JordanIndicators :=
  match reSearch gdpRE t with
  | some caps =>
    { i with gdp_usd_billion := parse_korean_amount_to_usd_billion (capStr caps 1).asString,
             gdp_year := some (digitsVal (capStr caps 2) : Int) }
  | none => i

/-- GDP-per-capita rule: mandatory USD capture (fallible `int`), optional
year group guarded by Python truthiness of `m.group(2)`. -/
def stepGdpPerCapita (t : List Char) (i : JordanIndicators) : Option JordanIndicators :=
  match reSearch percapRE t with
  | some caps =>
    (int? (stripCommas (capStr caps 1))).map fun usd =>
      let j := { i with gdp_per_capita_usd := some usd }
      match capGet caps 2 with
      | some [] => j
      | some (c :: cs) => { j with gdp_per_capita_year := some (digitsVal (c :: cs) : Int) }
      | none => j
  | none => some i

/-- Real-GDP-growth rule: primary pattern, then the fallback pattern;
the percentage goes through `safe_float`. -/
def stepGrowth (t : List Char) (i : JordanIndicators) : JordanIndicators :=
  match (match reSearch growthRE1 t with
         | some caps => some caps
         | none => reSearch growthRE2 t) with
  | some caps =>
    { i with real_gdp_growth_pct := safe_float (capStr caps 1).asString,
             real_gdp_growth_year := some (digitsVal (capStr caps 2) : Int) }
  | none => i

/-- Trade rule: one combined pattern for export and import; the first
captured year is kept as `trade_year`. -/
def stepTrade (t : List Char) (i : JordanIndicators) : JordanIndicators :=
  match reSearch tradeRE t with
  | some caps =>
    { i with export_usd_billion := parse_korean_amount_to_usd_billion (capStr caps 1).asString,
             import_usd_billion := parse_korean_amount_to_usd_billion (capStr caps 3).asString,
             trade_year := some (digitsVal (capStr caps 2) : Int) }
  | none => i

/-- Unemployment rule; the youth sub-rule is searched only when the primary
unemployment pattern matched. -/
def stepUnemployment (t : List Char) (i : JordanIndicators) : JordanIndicators :=
  match reSearch unempRE t with
  | some caps =>
    let j := { i with unemployment_pct := safe_float (capStr caps 1).asString,
                      unemployment_year := some (digitsVal (capStr caps 2) : Int) }
    match reSearch youthRE t with
    | some cy => { j with youth_unemployment_pct := safe_float (capStr cy 1).asString }
    | none => j
  | none => i

/-- Sector-shares rule: one pattern capturing four percentages left to
right; the agriculture capture is kept as the literal range string. -/
def stepSectors (t : List Char) (i : JordanIndicators) : JordanIndicators :=
  match reSearch sectorRE t with
  | some caps =>
    { i with sector_fin_public_pct := safe_float (capStr caps 1).asString,
             sector_manufacturing_pct := safe_float (capStr caps 2).asString,
             sector_ict_pct := safe_float (capStr caps 3).asString,
             sector_agri_pct_range := some (stripWs (capStr caps 4)).asString }
  | none => i

/-- `extract_indicators` from `app.py`: the rule blocks in source order over
the flat text; `none` models an uncaught `ValueError` escaping the call. -/
def extract_indicators (text : String) : Option JordanIndicators :=
  let t := text.data
  Option.bind (stepArea t (stepCapital t (stepCountry t {}))) fun i3 =>
  Option.bind (stepPopulation t i3) fun i4 =>
  Option.bind (stepGdpPerCapita t (stepGdp t (stepGovernment t (stepReligion t (stepLanguage t i4))))) fun i9 =>
  some (stepSectors t (stepUnemployment t (stepTrade t (stepGrowth t i9))))

/-!
## Text acquisition (`extract_text_from_pdf`)

`pdfplumber` is external to the repository: a parsed document is modelled
as its list of pages, each page carrying `extract_text()`'s result
(`none` when the page has no extractable text).  Opening a path is
abstracted by a document oracle `docAt`.
-/

/-- A parsed document: its pages' `extract_text()` results in page order. -/
structure PDFDoc where
  pages : List (Option String)

/-- The `text_all` accumulation loop: `text_all.append(p.extract_text() or "")`
for each page in order. -/
def collectPages : List (Option String) → List String → List String
  | [], acc => acc
  | p :: ps, acc => collectPages ps (acc ++ [p.getD ""])

/-- `extract_text_from_pdf` from `app.py`: a byte buffer takes precedence;
with no buffer, a missing or empty (falsy) path returns `""`; otherwise the
pages of the document are joined with a single newline. -/
def extract_text_from_pdf (docAt : String → PDFDoc) (file_bytes : Option PDFDoc)
    (file_path : Option String) : String :=
  match file_bytes with
  | some pdf => String.intercalate "\n" (collectPages pdf.pages [])
  | none =>
    match file_path with
    | none => ""
    | some fp =>
      if fp = "" then ""
      else String.intercalate "\n" (collectPages (docAt fp).pages [])

/-- `(\d+(?:\.\d+)?)\s*~\s*(\d+(?:\.\d+)?)` -/
def midRE : RE :=
  cat [RE.group 1 (cat [plusCls Char.isDigit, opt (cat [RE.chr '.', plusCls Char.isDigit])]),
       ws, RE.chr '~', ws,
       RE.group 2 (cat [plusCls Char.isDigit, opt (cat [RE.chr '.', plusCls Char.isDigit])])]

/-- `float()` applied to a `\d+(?:\.\d+)?` capture: always succeeds, so the
model reads the parse result off `pyFloat?`. -/
def decOf (g : List Char) : ℚ := (pyFloat? g).getD 0

/-- The agriculture range-midpoint computation from `plot_sectors` in
`app.py` (the spec's `midpoint` helper): `re.match` the range pattern at
the start of the string and average the two decimals; otherwise fall back
to `safe_float` on the whole string. -/
def range_midpoint (s : String) : Option ℚ :=
  match reMatch midRE s.data with
  | some caps => some (qdiv (qadd (decOf (capStr caps 1)) (decOf (capStr caps 2))) (Rat.divInt 2 1))
  | none => safe_float s

/-!
## Per-field rule functions

Each field of the record is determined by its own rule applied to the whole
text; `mkFromRules` packages them.  `extract_indicators` is proved below to
yield exactly `mkFromRules` whenever it returns.
-/

/-- Country-name rule as a function of the text alone. -/
def countryRule (t : List Char) : Option String :=
  (reSearch countryRE t).map fun c => (stripWs (capStr c 1)).asString

/-- Capital-name rule. -/
def capitalRule (t : List Char) : Option String :=
  (reSearch capitalRE t).map fun c => (stripWs (capStr c 1)).asString

/-- Capital population-hint rule (same pattern as the capital rule). -/
def capitalHintRule (t : List Char) : Option String :=
  (reSearch capitalRE t).map fun c => (stripWs (capStr c 2)).asString

/-- Area rule; `none` also covers the exception case, which never coexists
with a returned record. -/
def areaRule (t : List Char) : Option Int :=
  (reSearch areaRE t).bind fun c => int? (stripCommas (capStr c 1))

/-- Population rule. -/
def populationRule (t : List Char) : Option ℚ :=
  (reSearch populationRE t).bind fun c =>
    (int? (stripCommas (capStr c 1))).map fun v =>
      round4 (qmul (Rat.divInt v 1) (Rat.divInt 1 100))

/-- Language rule. -/
def languageRule (t : List Char) : Option String :=
  (reSearch languageRE t).map fun c => (stripWs (capStr c 1)).asString

/-- Religion rule. -/
def religionRule (t : List Char) : Option String :=
  (reSearch religionRE t).map fun c => (stripWs (capStr c 1)).asString

/-- Government-form rule. -/
def governmentRule (t : List Char) : Option String :=
  (reSearch governmentRE t).map fun c => (stripWs (capStr c 1)).asString

/-- GDP amount rule. -/
def gdpAmountRule (t : List Char) : Option ℚ :=
  (reSearch gdpRE t).bind fun c => parse_korean_amount_to_usd_billion (capStr c 1).asString

/-- GDP year rule. -/
def gdpYearRule (t : List Char) : Option Int :=
  (reSearch gdpRE t).map fun c => (digitsVal (capStr c 2) : Int)

/-- GDP-per-capita USD rule. -/
def percapUsdRule (t : List Char) : Option Int :=
  (reSearch percapRE t).bind fun c => int? (stripCommas (capStr c 1))

/-- GDP-per-capita year rule: only set when the USD parse succeeded and the
optional year group participated non-emptily. -/
def percapYearRule (t : List Char) : Option Int :=
  (reSearch percapRE t).bind fun c =>
    (int? (stripCommas (capStr c 1))).bind fun _ =>
      match capGet c 2 with
      | some [] => none
      | some (x :: xs) => some (digitsVal (x :: xs) : Int)
      | none => none

/-- Growth search: primary pattern, then fallback. -/
def growthSearch (t : List Char) : Option Caps :=
  match reSearch growthRE1 t with
  | some c => some c
  | none => reSearch growthRE2 t

/-- Real-GDP-growth percentage rule. -/
def growthPctRule (t : List Char) : Option ℚ :=
  (growthSearch t).bind fun c => safe_float (capStr c 1).asString

/-- Real-GDP-growth year rule. -/
def growthYearRule (t : List Char) : Option Int :=
  (growthSearch t).map fun c => (digitsVal (capStr c 2) : Int)

/-- Export amount rule (group 1 of the combined trade pattern). -/
def tradeExportRule (t : List Char) : Option ℚ :=
  (reSearch tradeRE t).bind fun c => parse_korean_amount_to_usd_billion (capStr c 1).asString

/-- Import amount rule (group 3 of the combined trade pattern). -/
def tradeImportRule (t : List Char) : Option ℚ :=
  (reSearch tradeRE t).bind fun c => parse_korean_amount_to_usd_billion (capStr c 3).asString

/-- Trade year rule: the first captured year (group 2). -/
def tradeYearRule (t : List Char) : Option Int :=
  (reSearch tradeRE t).map fun c => (digitsVal (capStr c 2) : Int)

/-- Unemployment percentage rule. -/
def unempPctRule (t : List Char) : Option ℚ :=
  (reSearch unempRE t).bind fun c => safe_float (capStr c 1).asString

/-- Unemployment year rule. -/
def unempYearRule (t : List Char) : Option Int :=
  (reSearch unempRE t).map fun c => (digitsVal (capStr c 2) : Int)

/-- Youth-unemployment rule: guarded by a successful primary unemployment
match — the one dependence between rules. -/
def youthRule (t : List Char) : Option ℚ :=
  (reSearch unempRE t).bind fun _ =>
    (reSearch youthRE t).bind fun cy => safe_float (capStr cy 1).asString

/-- Finance/public sector-share rule. -/
def sectorFinRule (t : List Char) : Option ℚ :=
  (reSearch sectorRE t).bind fun c => safe_float (capStr c 1).asString

/-- Manufacturing sector-share rule. -/
def sectorManufRule (t : List Char) : Option ℚ :=
  (reSearch sectorRE t).bind fun c => safe_float (capStr c 2).asString

/-- ICT sector-share rule. -/
def sectorIctRule (t : List Char) : Option ℚ :=
  (reSearch sectorRE t).bind fun c => safe_float (capStr c 3).asString

/-- Agriculture sector-share range rule (kept as literal text). -/
def sectorAgriRule (t : List Char) : Option String :=
  (reSearch sectorRE t).map fun c => (stripWs (capStr c 4)).asString

/-- The record all of whose fields are their own rules' results. -/
def mkFromRules (t : List Char) : JordanIndicators where
  country_name := countryRule t
  capital := capitalRule t
  capital_population_hint := capitalHintRule t
  area_km2 := areaRule t
  population_million := populationRule t
  language := languageRule t
  religion := religionRule t
  government_form := governmentRule t
  gdp_year := gdpYearRule t
  gdp_usd_billion := gdpAmountRule t
  gdp_per_capita_year := percapYearRule t
  gdp_per_capita_usd := percapUsdRule t
  real_gdp_growth_year := growthYearRule t
  real_gdp_growth_pct := growthPctRule t
  trade_year := tradeYearRule t
  export_usd_billion := tradeExportRule t
  import_usd_billion := tradeImportRule t
  unemployment_year := unempYearRule t
  unemployment_pct := unempPctRule t
  youth_unemployment_pct := youthRule t
  sector_fin_public_pct := sectorFinRule t
  sector_manufacturing_pct := sectorManufRule t
  sector_ict_pct := sectorIctRule t
  sector_agri_pct_range := sectorAgriRule t

/-- Destructuring pattern for the record: used by the step lemmas below. -/
theorem JordanIndicators.eta (i : JordanIndicators) :
    JordanIndicators.mk i.country_name i.capital i.capital_population_hint i.area_km2
      i.population_million i.language i.religion i.government_form i.gdp_year
      i.gdp_usd_billion i.gdp_per_capita_year i.gdp_per_capita_usd i.real_gdp_growth_year
      i.real_gdp_growth_pct i.trade_year i.export_usd_billion i.import_usd_billion
      i.unemployment_year i.unemployment_pct i.youth_unemployment_pct i.sector_fin_public_pct
      i.sector_manufacturing_pct i.sector_ict_pct i.sector_agri_pct_range = i := rfl

theorem stepCountry_eq (t : List Char) (i : JordanIndicators)
    (h : i.country_name = none) :
    stepCountry t i = { i with country_name := countryRule t } := by
  obtain ⟨f1, f2, f3, f4, f5, f6, f7, f8, f9, f10, f11, f12, f13, f14, f15, f16, f17, f18,
    f19, f20, f21, f22, f23, f24⟩ := i
  dsimp only at h
  subst h
  unfold stepCountry countryRule
  cases reSearch countryRE t <;> rfl

theorem stepCapital_eq (t : List Char) (i : JordanIndicators)
    (h1 : i.capital = none) (h2 : i.capital_population_hint = none) :
    stepCapital t i = { i with capital := capitalRule t,
                               capital_population_hint := capitalHintRule t } := by
  obtain ⟨f1, f2, f3, f4, f5, f6, f7, f8, f9, f10, f11, f12, f13, f14, f15, f16, f17, f18,
    f19, f20, f21, f22, f23, f24⟩ := i
  dsimp only at h1 h2
  subst h1
  subst h2
  unfold stepCapital capitalRule capitalHintRule
  cases reSearch capitalRE t <;> rfl

theorem stepLanguage_eq (t : List Char) (i : JordanIndicators)
    (h : i.language = none) :
    stepLanguage t i = { i with language := languageRule t } := by
  obtain ⟨f1, f2, f3, f4, f5, f6, f7, f8, f9, f10, f11, f12, f13, f14, f15, f16, f17, f18,
    f19, f20, f21, f22, f23, f24⟩ := i
  dsimp only at h
  subst h
  unfold stepLanguage languageRule
  cases reSearch languageRE t <;> rfl

theorem stepReligion_eq (t : List Char) (i : JordanIndicators)
    (h : i.religion = none) :
    stepReligion t i = { i with religion := religionRule t } := by
  obtain ⟨f1, f2, f3, f4, f5, f6, f7, f8, f9, f10, f11, f12, f13, f14, f15, f16, f17, f18,
    f19, f20, f21, f22, f23, f24⟩ := i
  dsimp only at h
  subst h
  unfold stepReligion religionRule
  cases reSearch religionRE t <;> rfl

theorem stepGovernment_eq (t : List Char) (i : JordanIndicators)
    (h : i.government_form = none) :
    stepGovernment t i = { i with government_form := governmentRule t } := by
  obtain ⟨f1, f2, f3, f4, f5, f6, f7, f8, f9, f10, f11, f12, f13, f14, f15, f16, f17, f18,
    f19, f20, f21, f22, f23, f24⟩ := i
  dsimp only at h
  subst h
  unfold stepGovernment governmentRule
  cases reSearch governmentRE t <;> rfl

theorem stepGdp_eq (t : List Char) (i : JordanIndicators)
    (h1 : i.gdp_usd_billion = none) (h2 : i.gdp_year = none) :
    stepGdp t i = { i with gdp_usd_billion := gdpAmountRule t, gdp_year := gdpYearRule t } := by
  obtain ⟨f1, f2, f3, f4, f5, f6, f7, f8, f9, f10, f11, f12, f13, f14, f15, f16, f17, f18,
    f19, f20, f21, f22, f23, f24⟩ := i
  dsimp only at h1 h2
  subst h1
  subst h2
  unfold stepGdp gdpAmountRule gdpYearRule
  cases reSearch gdpRE t <;> rfl

theorem stepGrowth_eq (t : List Char) (i : JordanIndicators)
    (h1 : i.real_gdp_growth_pct = none) (h2 : i.real_gdp_growth_year = none) :
    stepGrowth t i = { i with real_gdp_growth_pct := growthPctRule t,
                              real_gdp_growth_year := growthYearRule t } := by
  obtain ⟨f1, f2, f3, f4, f5, f6, f7, f8, f9, f10, f11, f12, f13, f14, f15, f16, f17, f18,
    f19, f20, f21, f22, f23, f24⟩ := i
  dsimp only at h1 h2
  subst h1
  subst h2
  unfold stepGrowth growthPctRule growthYearRule growthSearch
  cases reSearch growthRE1 t
  · cases reSearch growthRE2 t <;> rfl
  · rfl

theorem stepTrade_eq (t : List Char) (i : JordanIndicators)
    (h1 : i.export_usd_billion = none) (h2 : i.import_usd_billion = none)
    (h3 : i.trade_year = none) :
    stepTrade t i = { i with export_usd_billion := tradeExportRule t,
                             import_usd_billion := tradeImportRule t,
                             trade_year := tradeYearRule t } := by
  obtain ⟨f1, f2, f3, f4, f5, f6, f7, f8, f9, f10, f11, f12, f13, f14, f15, f16, f17, f18,
    f19, f20, f21, f22, f23, f24⟩ := i
  dsimp only at h1 h2 h3
  subst h1
  subst h2
  subst h3
  unfold stepTrade tradeExportRule tradeImportRule tradeYearRule
  cases reSearch tradeRE t <;> rfl

theorem stepUnemployment_eq (t : List Char) (i : JordanIndicators)
    (h1 : i.unemployment_pct = none) (h2 : i.unemployment_year = none)
    (h3 : i.youth_unemployment_pct = none) :
    stepUnemployment t i =
      { i with unemployment_pct := unempPctRule t,
               unemployment_year := unempYearRule t,
               youth_unemployment_pct := youthRule t } := by
  obtain ⟨f1, f2, f3, f4, f5, f6, f7, f8, f9, f10, f11, f12, f13, f14, f15, f16, f17, f18,
    f19, f20, f21, f22, f23, f24⟩ := i
  dsimp only at h1 h2 h3
  subst h1
  subst h2
  subst h3
  unfold stepUnemployment unempPctRule unempYearRule youthRule
  cases reSearch unempRE t
  · rfl
  · cases reSearch youthRE t <;> rfl

theorem stepSectors_eq (t : List Char) (i : JordanIndicators)
    (h1 : i.sector_fin_public_pct = none) (h2 : i.sector_manufacturing_pct = none)
    (h3 : i.sector_ict_pct = none) (h4 : i.sector_agri_pct_range = none) :
    stepSectors t i =
      { i with sector_fin_public_pct := sectorFinRule t,
               sector_manufacturing_pct := sectorManufRule t,
               sector_ict_pct := sectorIctRule t,
               sector_agri_pct_range := sectorAgriRule t } := by
  obtain ⟨f1, f2, f3, f4, f5, f6, f7, f8, f9, f10, f11, f12, f13, f14, f15, f16, f17, f18,
    f19, f20, f21, f22, f23, f24⟩ := i
  dsimp only at h1 h2 h3 h4
  subst h1
  subst h2
  subst h3
  subst h4
  unfold stepSectors sectorFinRule sectorManufRule sectorIctRule sectorAgriRule
  cases reSearch sectorRE t <;> rfl

theorem stepArea_some (t : List Char) (i j : JordanIndicators)
    (h : i.area_km2 = none) (hs : stepArea t i = some j) :
    j = { i with area_km2 := areaRule t } := by
  obtain ⟨f1, f2, f3, f4, f5, f6, f7, f8, f9, f10, f11, f12, f13, f14, f15, f16, f17, f18,
    f19, f20, f21, f22, f23, f24⟩ := i
  dsimp only at h
  subst h
  unfold stepArea at hs
  unfold areaRule
  cases hr : reSearch areaRE t with
  | none =>
    rw [hr] at hs
    cases hs
    rfl
  | some caps =>
    rw [hr] at hs
    dsimp only at hs
    dsimp only [Option.bind]
    cases hi : int? (stripCommas (capStr caps 1)) with
    | none => rw [hi] at hs; cases hs
    | some v =>
      rw [hi] at hs
      cases hs
      rfl

theorem stepPopulation_some (t : List Char) (i j : JordanIndicators)
    (h : i.population_million = none) (hs : stepPopulation t i = some j) :
    j = { i with population_million := populationRule t } := by
  obtain ⟨f1, f2, f3, f4, f5, f6, f7, f8, f9, f10, f11, f12, f13, f14, f15, f16, f17, f18,
    f19, f20, f21, f22, f23, f24⟩ := i
  dsimp only at h
  subst h
  unfold stepPopulation at hs
  unfold populationRule
  cases hr : reSearch populationRE t with
  | none =>
    rw [hr] at hs
    cases hs
    rfl
  | some caps =>
    rw [hr] at hs
    dsimp only at hs
    dsimp only [Option.bind]
    cases hi : int? (stripCommas (capStr caps 1)) with
    | none => rw [hi] at hs; cases hs
    | some v =>
      rw [hi] at hs
      cases hs
      rfl

theorem stepGdpPerCapita_some (t : List Char) (i j : JordanIndicators)
    (h1 : i.gdp_per_capita_usd = none) (h2 : i.gdp_per_capita_year = none)
    (hs : stepGdpPerCapita t i = some j) :
    j = { i with gdp_per_capita_usd := percapUsdRule t,
                 gdp_per_capita_year := percapYearRule t } := by
  obtain ⟨f1, f2, f3, f4, f5, f6, f7, f8, f9, f10, f11, f12, f13, f14, f15, f16, f17, f18,
    f19, f20, f21, f22, f23, f24⟩ := i
  dsimp only at h1 h2
  subst h1
  subst h2
  unfold stepGdpPerCapita at hs
  unfold percapUsdRule percapYearRule
  cases hr : reSearch percapRE t with
  | none =>
    rw [hr] at hs
    cases hs
    rfl
  | some caps =>
    rw [hr] at hs
    dsimp only at hs
    dsimp only [Option.bind]
    cases hi : int? (stripCommas (capStr caps 1)) with
    | none => rw [hi] at hs; cases hs
    | some v =>
      rw [hi] at hs
      dsimp only [Option.map] at hs
      cases hg : capGet caps 2 with
      | none =>
        rw [hg] at hs
        cases hs
        rfl
      | some g =>
        rw [hg] at hs
        dsimp only at hs ⊢
        cases g with
        | nil =>
          cases hs
          rfl
        | cons c cs =>
          cases hs
          rfl

/-- Decomposition of the extractor: whenever `extract_indicators` returns a
record, every field of that record is exactly its own rule's value applied
to the whole text. -/
theorem extract_indicators_some_eq (s : String) (r : JordanIndicators)
    (h : extract_indicators s = some r) : r = mkFromRules s.data := by
  unfold extract_indicators at h
  obtain ⟨i3, h3, h⟩ := Option.bind_eq_some.mp h
  obtain ⟨i4, h4, h⟩ := Option.bind_eq_some.mp h
  obtain ⟨i9, h9, h⟩ := Option.bind_eq_some.mp h
  rw [stepCountry_eq _ _ rfl, stepCapital_eq _ _ rfl rfl] at h3
  have e3 := stepArea_some _ _ _ rfl h3
  subst e3
  have e4 := stepPopulation_some _ _ _ rfl h4
  subst e4
  rw [stepLanguage_eq _ _ rfl, stepReligion_eq _ _ rfl, stepGovernment_eq _ _ rfl,
      stepGdp_eq _ _ rfl rfl] at h9
  have e9 := stepGdpPerCapita_some _ _ _ rfl rfl h9
  subst e9
  cases h
  rw [stepGrowth_eq _ _ rfl rfl, stepTrade_eq _ _ rfl rfl rfl,
      stepUnemployment_eq _ _ rfl rfl rfl, stepSectors_eq _ _ rfl rfl rfl rfl]
  rfl

/-!
## Matches consume their literal characters

Support for the claim that the amount parser yields `None` on any string
with no `억` token: every result of the matcher is a suffix of its input,
and a match of a pattern of the shape `<x> <ws> 억 ...` consumes an `억`.
-/

theorem runRE_suffix (r : RE) : ∀ (s : List Char) (caps : Caps) (rc : List Char × Caps),
    rc ∈ runRE r s caps → rc.1 <:+ s := by
  induction r with
  | eps =>
    intro s caps rc h
    simp only [runRE, List.mem_singleton] at h
    subst h
    exact List.suffix_refl s
  | chr c =>
    intro s caps rc h
    unfold runRE at h
    cases s with
    | nil => simp at h
    | cons x rest =>
      dsimp only at h
      by_cases hx : x == c
      · rw [if_pos hx] at h
        simp only [List.mem_singleton] at h
        subst h
        exact (List.suffix_cons x rest)
      · rw [if_neg hx] at h
        simp at h
  | cls p =>
    intro s caps rc h
    unfold runRE at h
    cases s with
    | nil => simp at h
    | cons x rest =>
      dsimp only at h
      by_cases hx : p x
      · rw [if_pos hx] at h
        simp only [List.mem_singleton] at h
        subst h
        exact (List.suffix_cons x rest)
      · rw [if_neg hx] at h
        simp at h
  | seq a b iha ihb =>
    intro s caps rc h
    unfold runRE at h
    obtain ⟨rc1, h1, h2⟩ := List.mem_flatMap.mp h
    exact (ihb _ _ _ h2).trans (iha _ _ _ h1)
  | alt a b iha ihb =>
    intro s caps rc h
    unfold runRE at h
    rcases List.mem_append.mp h with h' | h'
    · exact iha _ _ _ h'
    · exact ihb _ _ _ h'
  | starCls p =>
    intro s caps rc h
    unfold runRE at h
    obtain ⟨k, _, hk⟩ := List.mem_map.mp h
    rw [← hk]
    exact List.drop_suffix _ _
  | lazyStarCls p =>
    intro s caps rc h
    unfold runRE at h
    obtain ⟨k, _, hk⟩ := List.mem_map.mp h
    rw [← hk]
    exact List.drop_suffix _ _
  | group n rr ih =>
    intro s caps rc h
    unfold runRE at h
    obtain ⟨rc1, h1, hk⟩ := List.mem_map.mp h
    rw [← hk]
    exact ih s caps rc1 h1

theorem runRE_seq_chr_mem (c : Char) (b : RE) (s : List Char) (caps : Caps)
    (rc : List Char × Caps) (h : rc ∈ runRE (RE.seq (RE.chr c) b) s caps) : c ∈ s := by
  unfold runRE at h
  obtain ⟨rc1, h1, _⟩ := List.mem_flatMap.mp h
  unfold runRE at h1
  cases s with
  | nil => simp at h1
  | cons x rest =>
    dsimp only at h1
    by_cases hx : x == c
    · have : x = c := beq_iff_eq.mp hx
      subst this
      exact List.mem_cons_self x rest
    · rw [if_neg hx] at h1
      simp at h1

theorem runRE_amount_mem (s : List Char) (caps : Caps) (rc : List Char × Caps)
    (h : rc ∈ runRE amountRE s caps) : '억' ∈ s := by
  unfold amountRE cat at h
  simp only [List.foldr] at h
  unfold runRE at h
  obtain ⟨r1, h1, h⟩ := List.mem_flatMap.mp h
  obtain ⟨r2, h2, h⟩ := List.mem_flatMap.mp h
  have hc : '억' ∈ r2.1 := runRE_seq_chr_mem _ _ _ _ _ h
  exact ((runRE_suffix _ _ _ _ h2).trans (runRE_suffix _ _ _ _ h1)).subset hc

theorem reSearch_amount_none (t : List Char) (h : '억' ∉ t) :
    reSearch amountRE t = none := by
  induction t with
  | nil =>
    unfold reSearch reMatch
    cases hr : runRE amountRE [] [] with
    | nil => rfl
    | cons rc l =>
      exact absurd (runRE_amount_mem _ _ rc (hr ▸ List.mem_cons_self rc l)) (by simp)
  | cons x rest ih =>
    have hm : reMatch amountRE (x :: rest) = none := by
      unfold reMatch
      cases hr : runRE amountRE (x :: rest) [] with
      | nil => rfl
      | cons rc l =>
        exact absurd (runRE_amount_mem _ _ rc (hr ▸ List.mem_cons_self rc l)) h
    unfold reSearch
    rw [hm]
    exact ih (fun hmem => h (List.mem_cons_of_mem x hmem))

theorem mem_of_mem_stripWs {c : Char} {l : List Char} (h : c ∈ stripWs l) : c ∈ l := by
  unfold stripWs at h
  rw [List.mem_reverse] at h
  have h2 := (List.dropWhile_sublist pySpace).subset h
  rw [List.mem_reverse] at h2
  exact (List.dropWhile_sublist pySpace).subset h2

theorem parse_korean_amount_no_eok (s : String) (h : '억' ∉ s.data) :
    parse_korean_amount_to_usd_billion s = none := by
  unfold parse_korean_amount_to_usd_billion
  have h2 : '억' ∉ stripWs (stripCommas s.data) := by
    intro hm
    exact h (List.mem_of_mem_filter (mem_of_mem_stripWs hm))
  dsimp only
  rw [reSearch_amount_none _ h2]
  rfl

/-- C1: the Korean currency-amount conversion is pure; on a pattern match it
returns `hundred_million_units * 0.1 + ten_million_units * 0.01` rounded to
4 decimal places; it returns absent (never zero) on a string with no `억`
(hundred-million) token; and
`convert("74억 9천만") = 7.49`, `convert("400억") = 40.0`,
`convert("204억 6천만") = 20.46`, `convert("no digits here")` is absent. -/
theorem claim_C1_currency_conversion :
    parse_korean_amount_to_usd_billion "74억 9천만" = some (749 / 100 : ℚ) ∧
    parse_korean_amount_to_usd_billion "400억" = some (40 : ℚ) ∧
    parse_korean_amount_to_usd_billion "204억 6천만" = some (2046 / 100 : ℚ) ∧
    parse_korean_amount_to_usd_billion "no digits here" = none ∧
    (∀ s : String, '억' ∉ s.data → parse_korean_amount_to_usd_billion s = none) ∧
    (∀ s : String, parse_korean_amount_to_usd_billion s = none ∨
      ∃ e c : ℕ, parse_korean_amount_to_usd_billion s =
        some (round4 ((e : ℚ) * (1 / 10) + (c : ℚ) * (1 / 100)))) := by
  refine ⟨?_, ?_, ?_, by decide, parse_korean_amount_no_eok, ?_⟩
  · have h : parse_korean_amount_to_usd_billion "74억 9천만" = some (Rat.divInt 749 100) := by
      decide
    rw [h, Rat.divInt_eq_div]
    norm_num
  · have h : parse_korean_amount_to_usd_billion "400억" = some (Rat.divInt 40 1) := by decide
    rw [h, Rat.divInt_eq_div]
    norm_num
  · have h : parse_korean_amount_to_usd_billion "204억 6천만" = some (Rat.divInt 2046 100) := by
      decide
    rw [h, Rat.divInt_eq_div]
    norm_num
  · intro s
    unfold parse_korean_amount_to_usd_billion
    dsimp only
    cases hr : reSearch amountRE (stripWs (stripCommas s.data)) with
    | none => exact Or.inl rfl
    | some caps =>
      refine Or.inr ?_
      dsimp only [Option.map]
      cases hg : capGet caps 2 with
      | none =>
        refine ⟨digitsVal (capStr caps 1), 0, congrArg some ?_⟩
        dsimp only
        refine congrArg round4 ?_
        rw [qadd_eq, qmul_eq, qmul_eq, Rat.divInt_eq_div, Rat.divInt_eq_div, Rat.divInt_eq_div]
        push_cast
        ring
      | some g =>
        cases g with
        | nil =>
          refine ⟨digitsVal (capStr caps 1), 0, congrArg some ?_⟩
          dsimp only
          refine congrArg round4 ?_
          rw [qadd_eq, qmul_eq, qmul_eq, Rat.divInt_eq_div, Rat.divInt_eq_div, Rat.divInt_eq_div]
          push_cast
          ring
        | cons x xs =>
          refine ⟨digitsVal (capStr caps 1), digitsVal (x :: xs), congrArg some ?_⟩
          dsimp only
          refine congrArg round4 ?_
          rw [qadd_eq, qmul_eq, qmul_eq, Rat.divInt_eq_div, Rat.divInt_eq_div,
              Rat.divInt_eq_div, Rat.divInt_eq_div]
          push_cast
          ring

/-- Witness for C1: the no-`억`-token clause applied at a concrete string. -/
theorem claim_C1_currency_conversion_witness :
    '억' ∉ ("no eok token".data) ∧ parse_korean_amount_to_usd_billion "no eok token" = none :=
  ⟨by decide, claim_C1_currency_conversion.2.2.2.2.1 "no eok token" (by decide)⟩

/-- C2 counterexample: removing the substring matched by the unemployment
rule (`"실업률 : 18.5%(2017)"`) from a text also clears
`youth_unemployment_pct` — a different field — even though the youth
pattern still matches the remaining text.  Full rule independence as
claimed therefore fails on the code: the youth sub-rule runs only when the
primary unemployment rule matches. -/
theorem claim_C2_independence_counterexample :
    "실업률 : 18.5%(2017) 청년실업률은 30%" = "실업률 : 18.5%(2017)" ++ " 청년실업률은 30%" ∧
    (extract_indicators "실업률 : 18.5%(2017) 청년실업률은 30%").map
        (fun r => r.youth_unemployment_pct) = some (some (30 : ℚ)) ∧
    (extract_indicators " 청년실업률은 30%").map
        (fun r => r.youth_unemployment_pct) = some none ∧
    (reSearch youthRE (" 청년실업률은 30%".data)).isSome = true := by
  exact ⟨by decide, by decide, by decide, by decide⟩

/-- C2 (amended): each field of a returned record is the value of its own
label-anchored rule applied to the whole text — a non-match of one rule
never blocks any other field — with the single exception that
`youth_unemployment_pct` is computed by `youthRule`, which is guarded by a
successful primary unemployment match. -/
theorem claim_C2_field_rules (s : String) (r : JordanIndicators)
    (h : extract_indicators s = some r) :
    r.country_name = countryRule s.data ∧
    r.capital = capitalRule s.data ∧
    r.capital_population_hint = capitalHintRule s.data ∧
    r.area_km2 = areaRule s.data ∧
    r.population_million = populationRule s.data ∧
    r.language = languageRule s.data ∧
    r.religion = religionRule s.data ∧
    r.government_form = governmentRule s.data ∧
    r.gdp_year = gdpYearRule s.data ∧
    r.gdp_usd_billion = gdpAmountRule s.data ∧
    r.gdp_per_capita_year = percapYearRule s.data ∧
    r.gdp_per_capita_usd = percapUsdRule s.data ∧
    r.real_gdp_growth_year = growthYearRule s.data ∧
    r.real_gdp_growth_pct = growthPctRule s.data ∧
    r.trade_year = tradeYearRule s.data ∧
    r.export_usd_billion = tradeExportRule s.data ∧
    r.import_usd_billion = tradeImportRule s.data ∧
    r.unemployment_year = unempYearRule s.data ∧
    r.unemployment_pct = unempPctRule s.data ∧
    r.youth_unemployment_pct = youthRule s.data ∧
    r.sector_fin_public_pct = sectorFinRule s.data ∧
    r.sector_manufacturing_pct = sectorManufRule s.data ∧
    r.sector_ict_pct = sectorIctRule s.data ∧
    r.sector_agri_pct_range = sectorAgriRule s.data := by
  have he := extract_indicators_some_eq s r h
  subst he
  exact ⟨rfl, rfl, rfl, rfl, rfl, rfl, rfl, rfl, rfl, rfl, rfl, rfl, rfl, rfl, rfl, rfl,
         rfl, rfl, rfl, rfl, rfl, rfl, rfl, rfl⟩

/-- Witness for C2 (amended), applied at a concrete text. -/
theorem claim_C2_field_rules_witness :
    extract_indicators "실업률 : 7.5%(2016)" = some (mkFromRules ("실업률 : 7.5%(2016)".data)) ∧
    (mkFromRules ("실업률 : 7.5%(2016)".data)).country_name = countryRule ("실업률 : 7.5%(2016)".data) :=
  ⟨by decide, (claim_C2_field_rules "실업률 : 7.5%(2016)" _ (by decide)).1⟩

/-- C3 counterexample: with neither a byte buffer nor a path,
`extract_text_from_pdf` returns the empty string — it does not fail with a
distinguishable error (its result type carries no error at all on this
branch; `app.py` line 122 is `return ""`). -/
theorem claim_C3_no_input_counterexample :
    extract_text_from_pdf (fun _ => ⟨[]⟩) none none = "" := by decide

/-- C3 (amended): with neither source supplied (and likewise with a falsy
empty path), text acquisition returns the empty string rather than failing —
the documented empty-string variant of the ambiguity, which is what
`app.py` implements. -/
theorem claim_C3_no_input_empty :
    ∀ docAt : String → PDFDoc,
      extract_text_from_pdf docAt none none = "" ∧
      extract_text_from_pdf docAt none (some "") = "" := by
  intro docAt
  exact ⟨rfl, rfl⟩

/-- C4 counterexample: a text that contains the scenario substring
`"수출 74억 9천만 달러(2017), 수입 204억 6천만 달러(2017)"` but whose leftmost
trade match is an earlier trade sentence; the extracted export is 0.1, not
7.49, so the claim's "for any text containing the substring" fails. -/
theorem claim_C4_containing_counterexample :
    "수출 1억 달러(2016), 수입 2억 달러(2016) 수출 74억 9천만 달러(2017), 수입 204억 6천만 달러(2017)"
      = "수출 1억 달러(2016), 수입 2억 달러(2016) "
        ++ "수출 74억 9천만 달러(2017), 수입 204억 6천만 달러(2017)" ∧
    (extract_indicators
        "수출 1억 달러(2016), 수입 2억 달러(2016) 수출 74억 9천만 달러(2017), 수입 204억 6천만 달러(2017)").map
      (fun r => r.export_usd_billion) = some (some (Rat.divInt 1 10)) ∧
    Rat.divInt 1 10 = (1 / 10 : ℚ) ∧ (1 / 10 : ℚ) ≠ 749 / 100 := by
  refine ⟨by decide, by decide, ?_, by norm_num⟩
  rw [Rat.divInt_eq_div]
  norm_num

/-- C4 (amended): the trade rule extracts export amount, export year, import
amount and import year in one combined pattern match, keeping the first
captured year as `trade_year`; on the scenario text itself (where that text
is the leftmost match) the record has export 7.49, import 20.46, trade year
2017 and derived balance −12.97. -/
theorem claim_C4_trade_scenario :
    (extract_indicators "수출 74억 9천만 달러(2017), 수입 204억 6천만 달러(2017)").map
        (fun r => (r.export_usd_billion, r.import_usd_billion, r.trade_year,
                   r.trade_balance_usd_billion))
      = some (some (749 / 100 : ℚ), some (2046 / 100 : ℚ), some (2017 : ℤ),
              some (-(1297 / 100) : ℚ)) ∧
    (extract_indicators "수출 3억 달러(2015), 수입 4억 달러(2016)").map
        (fun r => r.trade_year) = some (some (2015 : ℤ)) := by
  constructor
  · have h :
        (extract_indicators "수출 74억 9천만 달러(2017), 수입 204억 6천만 달러(2017)").map
            (fun r => (r.export_usd_billion, r.import_usd_billion, r.trade_year,
                       r.trade_balance_usd_billion))
          = some (some (Rat.divInt 749 100), some (Rat.divInt 2046 100), some (2017 : ℤ),
                  some (Rat.divInt (-1297) 100)) := by decide
    rw [h, Rat.divInt_eq_div, Rat.divInt_eq_div, Rat.divInt_eq_div]
    norm_num
  · decide

/-- C5: the derived trade balance is `round(export - import, 4)` when both
operands are present, absent when either is absent, and depends on nothing
but the two operands — it is a function of the record, not a stored field. -/
theorem claim_C5_trade_balance :
    ∀ r : JordanIndicators,
      (∀ e m : ℚ, r.export_usd_billion = some e → r.import_usd_billion = some m →
        r.trade_balance_usd_billion = some (round4 (e - m))) ∧
      ((r.export_usd_billion = none ∨ r.import_usd_billion = none) →
        r.trade_balance_usd_billion = none) ∧
      (∀ r' : JordanIndicators, r'.export_usd_billion = r.export_usd_billion →
        r'.import_usd_billion = r.import_usd_billion →
        r'.trade_balance_usd_billion = r.trade_balance_usd_billion) := by
  intro r
  refine ⟨?_, ?_, ?_⟩
  · intro e m he hm
    unfold JordanIndicators.trade_balance_usd_billion
    rw [he, hm]
    dsimp only
    rw [qsub_eq]
  · intro h
    unfold JordanIndicators.trade_balance_usd_billion
    rcases h with h | h
    · rw [h]
    · rw [h]
      cases r.export_usd_billion <;> rfl
  · intro r' he hm
    unfold JordanIndicators.trade_balance_usd_billion
    rw [he, hm]

/-- Witness for C5 at a concrete record. -/
theorem claim_C5_trade_balance_witness :
    ({ export_usd_billion := some 2, import_usd_billion := some 1 } :
        JordanIndicators).trade_balance_usd_billion = some (round4 ((2 : ℚ) - 1)) :=
  (claim_C5_trade_balance _).1 2 1 rfl rfl

/-- C6: on the input `"면 적 : ,km2"` the area pattern matches with the
capture `","`, comma-stripping leaves the empty string, and Python's
`int("")` raises `ValueError`, so `extract_indicators` raises (modelled:
returns `none`) instead of treating the field as absent. -/
theorem claim_C6_extractor_raises :
    extract_indicators "면 적 : ,km2" = none ∧
    (reSearch areaRE ("면 적 : ,km2".data)).map (fun c => capStr c 1) = some [','] ∧
    int? (stripCommas [',']) = none := by
  exact ⟨by decide, by decide, by decide⟩

/-- C7: extraction is deterministic and stateless — the record is a pure
function of the input text alone. -/
theorem claim_C7_deterministic :
    ∀ s t : String, s = t → extract_indicators s = extract_indicators t := by
  intro s t h
  rw [h]

/-- Witness for C7. -/
theorem claim_C7_deterministic_witness :
    extract_indicators "abc" = extract_indicators "abc" :=
  claim_C7_deterministic "abc" "abc" rfl

/-- C8: the range-midpoint helper returns the mean of the two decimals when
the range pattern matches at the start of the string, the number itself
when the string instead parses as a bare float, and absent when neither
holds; `midpoint("3~4") = 3.5`, `midpoint("5") = 5.0`, `midpoint("bad")`
is absent. -/
theorem claim_C8_range_midpoint :
    range_midpoint "3~4" = some (7 / 2 : ℚ) ∧
    range_midpoint "5" = some (5 : ℚ) ∧
    range_midpoint "bad" = none ∧
    (∀ (s : String) (caps : Caps), reMatch midRE s.data = some caps →
      range_midpoint s = some ((decOf (capStr caps 1) + decOf (capStr caps 2)) / 2)) ∧
    (∀ (s : String) (v : ℚ), reMatch midRE s.data = none → safe_float s = some v →
      range_midpoint s = some v) ∧
    (∀ s : String, reMatch midRE s.data = none → safe_float s = none →
      range_midpoint s = none) := by
  refine ⟨?_, by decide, by decide, ?_, ?_, ?_⟩
  · have h : range_midpoint "3~4" = some (Rat.divInt 7 2) := by decide
    rw [h, Rat.divInt_eq_div]
    norm_num
  · intro s caps h
    unfold range_midpoint
    rw [h]
    dsimp only
    rw [qdiv_eq, qadd_eq, Rat.divInt_eq_div]
    norm_num
  · intro s v h hv
    unfold range_midpoint
    rw [h]
    exact hv
  · intro s h hv
    unfold range_midpoint
    rw [h]
    exact hv

/-- Witness for C8: the neither-form clause at a concrete string. -/
theorem claim_C8_range_midpoint_witness : range_midpoint "zz" = none :=
  claim_C8_range_midpoint.2.2.2.2.2 "zz" (by decide) (by decide)

theorem collectPages_eq (ps : List (Option String)) :
    ∀ acc, collectPages ps acc = acc ++ ps.map (fun p => p.getD "") := by
  induction ps with
  | nil => intro acc; simp [collectPages]
  | cons p ps ih => intro acc; simp [collectPages, ih]

/-- C9: text acquisition joins the pages' text contents, in page order, with
a single newline; a page with no extractable text contributes the empty
string (and never a failure — the function is total). -/
theorem claim_C9_page_join :
    (∀ (docAt : String → PDFDoc) (pdf : PDFDoc) (p : Option String),
      extract_text_from_pdf docAt (some pdf) p
        = String.intercalate "\n" (pdf.pages.map (fun pg => pg.getD ""))) ∧
    (∀ (docAt : String → PDFDoc) (fp : String), fp ≠ "" →
      extract_text_from_pdf docAt none (some fp)
        = String.intercalate "\n" ((docAt fp).pages.map (fun pg => pg.getD ""))) ∧
    extract_text_from_pdf (fun _ => ⟨[]⟩) (some ⟨[some "a", none, some "c"]⟩) none
      = "a\n\nc" := by
  refine ⟨?_, ?_, by decide⟩
  · intro docAt pdf p
    unfold extract_text_from_pdf
    dsimp only
    rw [collectPages_eq]
    simp
  · intro docAt fp h
    unfold extract_text_from_pdf
    dsimp only
    rw [if_neg h, collectPages_eq]
    simp

/-- Witness for C9: the path-open clause at a concrete document oracle. -/
theorem claim_C9_page_join_witness :
    extract_text_from_pdf (fun _ => ⟨[some "x", none]⟩) none (some "p")
      = String.intercalate "\n"
          (((fun _ : String => PDFDoc.mk [some "x", none]) "p").pages.map (fun pg => pg.getD "")) :=
  claim_C9_page_join.2.1 (fun _ => ⟨[some "x", none]⟩) "p" (by decide)

/-- C10: `capital` and `capital_population_hint` are populated together or
absent together — the capital rule requires a parenthesized hint right
after the name, so a capital label without the parenthetical leaves both
fields absent, and a successful match sets both. -/
theorem claim_C10_capital_pair :
    (∀ (s : String) (r : JordanIndicators), extract_indicators s = some r →
      ((r.capital.isSome ↔ r.capital_population_hint.isSome) ∧
       (reSearch capitalRE s.data = none →
         r.capital = none ∧ r.capital_population_hint = none) ∧
       (∀ caps : Caps, reSearch capitalRE s.data = some caps →
         r.capital.isSome ∧ r.capital_population_hint.isSome))) ∧
    (extract_indicators "수 도 : 암만").map
        (fun r => (r.capital, r.capital_population_hint)) = some (none, none) ∧
    (extract_indicators "수 도 : 암만(Amman, 인구 약 400만 명)").map
        (fun r => (r.capital, r.capital_population_hint))
      = some (some "암만", some "Amman, 인구 약 400만 명") := by
  refine ⟨?_, by decide, by decide⟩
  intro s r h
  have he := extract_indicators_some_eq s r h
  subst he
  refine ⟨?_, ?_, ?_⟩
  · cases hc : reSearch capitalRE s.data <;>
      simp [mkFromRules, capitalRule, capitalHintRule, hc]
  · intro hn
    simp [mkFromRules, capitalRule, capitalHintRule, hn]
  · intro caps hc
    simp [mkFromRules, capitalRule, capitalHintRule, hc]

/-- Witness for C10 at a concrete text with a matching capital rule. -/
theorem claim_C10_capital_pair_witness :
    ((mkFromRules ("수 도 : a(b)".data)).capital.isSome ↔
      (mkFromRules ("수 도 : a(b)".data)).capital_population_hint.isSome) :=
  (claim_C10_capital_pair.1 "수 도 : a(b)" (mkFromRules ("수 도 : a(b)".data)) (by decide)).1
